import Mathlib

/-!
Verification of the `PFDataService` access facade
(`python/parflow/tools/pf_data_service.py`).

The facade is shallowly embedded: the Python class becomes a structure, each
method becomes a function that threads the facade state (so frame properties
are statable) and, where the method can mutate a caller-supplied header dict,
also returns the final state of that dict.  Python dicts are modelled as
insertion-ordered association lists with the exact CPython update semantics
(assignment to an existing key replaces the value in place, assignment to a
new key appends).  The binary codec (`ParflowBinaryReader`), the xarray
backend entrypoint and the multi-file stacker (`read_stack_of_pfbs`) are
external collaborators living outside this repository; they are modelled as
injected values, exactly as the facade treats them (it only stores and calls
them).  Success of the accelerated-implementation import in
`configure_dependency_injection` is modelled by an `Option ImplBindings`
argument: `some b` means the three imports resolved to the bindings `b`,
`none` means any exception was raised during resolution.
-/

set_option autoImplicit false
set_option linter.unusedVariables false

namespace PFTools

/-- Numeric value stored in a codec header mapping. -/
abbrev HVal := Int

/-- Abstract ndarray payload; its contents are opaque to the facade. -/
abbrev NDArray := List Int

/-- A Python dict with string keys, as an insertion-ordered association list. -/
abbrev Dict (α : Type) := List (String × α)

/-- The caller-supplied output header dict: values are codec values or the
Python `None` marker (`Option.none`). -/
abbrev OutHeader := Dict (Option HVal)

/-- Python `d.get(k, None)`: value of the first entry with key `k`, if any. -/
def dictGet {α : Type} (d : Dict α) (k : String) : Option α :=
  match d with
  | [] => none
  | (k₁, v₁) :: rest => if k₁ = k then some v₁ else dictGet rest k

/-- Python `d[k] = v`: replace in place if the key exists, else append. -/
def dictSet {α : Type} (d : Dict α) (k : String) (v : α) : Dict α :=
  match d with
  | [] => [(k, v)]
  | (k₁, v₁) :: rest => if k₁ = k then (k₁, v) :: rest else (k₁, v₁) :: dictSet rest k v

/-- Python `list(d.keys())`. -/
def dictKeys {α : Type} (d : Dict α) : List String :=
  d.map Prod.fst

/-- The external binary codec object produced by `parflow_binary_reader_class(file_name)`:
its `header` mapping and its `read_all_subgrids(mode=..., z_first=...)` method. -/
structure ParflowBinaryReader where
  header : Dict HVal
  read_all_subgrids : String → Bool → NDArray

/-- One implementation of the three injected bindings that
`configure_dependency_injection` imports as a unit: the reader class, the
backend entrypoint class (identified by an opaque tag) and `read_stack_of_pfbs`
(arguments: file_names, z_first, z_is). -/
structure ImplBindings where
  reader : String → ParflowBinaryReader
  entrypoint : String
  stacker : List String → Bool → String → NDArray

/-- The facade state: the fields assigned in `PFDataService.__init__`. -/
structure PFDataService where
  z_first : Bool
  z_is : String
  parflow_binary_reader_class : Option (String → ParflowBinaryReader)
  parflow_backend_entrypoint_class : Option String
  read_stack_of_pfbs : Option (List String → Bool → String → NDArray)
  implementation_type : Option String

/-- `configure_dependency_injection`: try to import the accelerated bindings;
on success install them with `implementation_type = "default"`, on any
exception fall back to the portable bindings with
`implementation_type = "portable"`. -/
def PFDataService.configure_dependency_injection
    (accel : Option ImplBindings) (portable : ImplBindings)
    (self : PFDataService) : PFDataService :=
  match accel with
  | some b =>
    { self with
      parflow_binary_reader_class := some b.reader
      parflow_backend_entrypoint_class := some b.entrypoint
      read_stack_of_pfbs := some b.stacker
      implementation_type := some "default" }
  | none =>
    { self with
      parflow_binary_reader_class := some portable.reader
      parflow_backend_entrypoint_class := some portable.entrypoint
      read_stack_of_pfbs := some portable.stacker
      implementation_type := some "portable" }

/-- `PFDataService.__init__`: set the configuration defaults, null the injected
references, then run `configure_dependency_injection`. -/
def PFDataService.construct (accel : Option ImplBindings) (portable : ImplBindings) :
    PFDataService :=
  PFDataService.configure_dependency_injection accel portable
    { z_first := true
      z_is := "z"
      parflow_binary_reader_class := none
      parflow_backend_entrypoint_class := none
      read_stack_of_pfbs := none
      implementation_type := none }

/-- Record of one `xr.open_dataset` / `xr.open_dataarray` invocation made by
the facade: the path, the `name` argument and the `engine` argument. -/
structure XrOpenCall where
  path : String
  name : String
  engine : Option String
deriving DecidableEq

/-- `read_pfb_xarray_dataset`: delegates to `xr.open_dataset` with the fixed
name `xxdefault_single` and the injected entrypoint class as engine.  The
`header` parameter is accepted but never touched by the method body; it is
returned unchanged, together with the unchanged facade state. -/
def PFDataService.read_pfb_xarray_dataset (self : PFDataService) (file_name : String)
    (header : Option OutHeader) : XrOpenCall × Option OutHeader × PFDataService :=
  ({ path := file_name
     name := "xxdefault_single"
     engine := self.parflow_backend_entrypoint_class }, header, self)

/-- `read_pfb_xarray_dataarray`: delegates to `xr.open_dataarray` with
`name = os.path.basename(file_name)`. -/
def osPathBasename (p : String) : String :=
  ((p.splitOn "/").getLast?).getD ""

def PFDataService.read_pfb_xarray_dataarray (self : PFDataService) (file_name : String) :
    XrOpenCall × PFDataService :=
  ({ path := file_name
     name := osPathBasename file_name
     engine := self.parflow_backend_entrypoint_class }, self)

/-- The thirteen keys assigned into the caller header dict by
`read_pfb_numpy`, in source order. -/
def headerFieldKeys : List String :=
  ["x", "y", "z", "dx", "dy", "dz", "nx", "ny", "nz", "p", "q", "r", "n_subgrids"]

/-- The thirteen statements `header[k] = pfb.header.get(k, None)` of
`read_pfb_numpy`, applied in source order to the caller dict `h`. -/
def populateHeader (pfbHeader : Dict HVal) (h : OutHeader) : OutHeader :=
  headerFieldKeys.foldl (fun acc k => dictSet acc k (dictGet pfbHeader k)) h

/-- `read_pfb_numpy`: open the file with the injected reader class, read all
subgrids with the requested mode and the configured `z_first`, and populate the
caller header dict when one was supplied.  Result components: the returned
ndarray (`none` models the exception raised when the injected class is still
`None`), the final state of the caller header dict, and the facade state. -/
def PFDataService.read_pfb_numpy (self : PFDataService) (file_name : String)
    (header : Option OutHeader) (mode : String) :
    Option NDArray × Option OutHeader × PFDataService :=
  match self.parflow_binary_reader_class with
  | none => (none, header, self)
  | some readerClass =>
    let pfb := readerClass file_name
    let data := pfb.read_all_subgrids mode self.z_first
    match header with
    | none => (some data, none, self)
    | some h => (some data, some (populateHeader pfb.header h), self)

/-- `read_pfb_files_numpy`: resolve `z_is` to the configured default when the
argument is `None`, then call the injected `read_stack_of_pfbs` with the file
list, the configured `z_first` and the resolved `z_is`.  Note, faithful to the
source: neither `mode` nor `header` is used by the body. -/
def PFDataService.read_pfb_files_numpy (self : PFDataService) (file_names : List String)
    (header : Option OutHeader) (mode : String) (z_is : Option String) :
    Option NDArray × Option OutHeader × PFDataService :=
  match self.read_stack_of_pfbs with
  | none => (none, header, self)
  | some stacker =>
    let z := z_is.getD self.z_is
    (some (stacker file_names self.z_first z), header, self)

/-- `read_pfb_header`: the body is `header = None; return header`. -/
def PFDataService.read_pfb_header (self : PFDataService) (file_name : String) :
    Option (Dict HVal) × PFDataService :=
  (none, self)

/-- Record of one binary file written to disk. -/
structure FileWrite where
  path : String
  payload : NDArray

/-- `write_dist_files_from_numpy`: the body is `pass` — it returns `None` and
performs no file writes.  Result components: the Python return value and the
list of file writes performed. -/
def PFDataService.write_dist_files_from_numpy (self : PFDataService)
    (header : Dict HVal) (data : NDArray) (mode : String) :
    Option Unit × List FileWrite × PFDataService :=
  (none, [], self)

/-- `write_pfb_from_numpy`: the body is `pass` — it returns `None` and
performs no file writes. -/
def PFDataService.write_pfb_from_numpy (self : PFDataService)
    (header : Dict HVal) (data : NDArray) (mode : String) :
    Option Unit × List FileWrite × PFDataService :=
  (none, [], self)

/-- Concrete codec used to instantiate theorems on closed inputs: header of
the 10x10x8 single-subgrid scenario from the test suite. -/
def testReader (file_name : String) : ParflowBinaryReader :=
  { header := [("x", 0), ("y", 0), ("z", 0), ("dx", 0), ("dy", 0), ("dz", 0),
               ("nx", 10), ("ny", 10), ("nz", 8), ("p", 1), ("q", 1), ("r", 1),
               ("n_subgrids", 1)]
    read_all_subgrids := fun mode zf => [] }

/-- Concrete bindings used to instantiate theorems on closed inputs. -/
def testBindings : ImplBindings :=
  { reader := testReader
    entrypoint := "ParflowBackendEntrypoint"
    stacker := fun files zf zi => [] }

/-! Dict lemmas: behaviour of lookup and key list under assignment. -/

theorem dictGet_dictSet_self {α : Type} (d : Dict α) (k : String) (v : α) :
    dictGet (dictSet d k v) k = some v := by
  induction d with
  | nil => simp [dictSet, dictGet]
  | cons p rest ih =>
    obtain ⟨k₁, v₁⟩ := p
    by_cases hp : k₁ = k
    · simp [dictSet, dictGet, hp]
    · simp [dictSet, dictGet, hp, ih]

theorem dictGet_dictSet_ne {α : Type} (d : Dict α) (k k₂ : String) (v : α)
    (hne : k₂ ≠ k) : dictGet (dictSet d k₂ v) k = dictGet d k := by
  induction d with
  | nil => simp [dictSet, dictGet, hne]
  | cons p rest ih =>
    obtain ⟨k₁, v₁⟩ := p
    by_cases hp : k₁ = k₂
    · subst hp
      simp [dictSet, dictGet, hne]
    · simp [dictSet, dictGet, hp, ih]

theorem dictKeys_dictSet {α : Type} (d : Dict α) (k : String) (v : α) :
    dictKeys (dictSet d k v) =
      if k ∈ dictKeys d then dictKeys d else dictKeys d ++ [k] := by
  induction d with
  | nil => simp [dictSet, dictKeys]
  | cons p rest ih =>
    obtain ⟨k₁, v₁⟩ := p
    by_cases hp : k₁ = k
    · simp [dictSet, dictKeys, hp]
    · have hne : k ≠ k₁ := fun h => hp h.symm
      simp only [dictSet, if_neg hp, dictKeys, List.map_cons] at ih ⊢
      simp only [List.mem_cons, hne, false_or]
      split_ifs with hm
      · rw [ih, if_pos hm]
      · rw [ih, if_neg hm, List.cons_append]

theorem dictGet_foldl_dictSet_notMem {β : Type} (ks : List String) (f : String → β)
    (h : Dict β) (k : String) (hk : k ∉ ks) :
    dictGet (ks.foldl (fun acc k₂ => dictSet acc k₂ (f k₂)) h) k = dictGet h k := by
  induction ks generalizing h with
  | nil => rfl
  | cons k₁ rest ih =>
    simp only [List.foldl_cons]
    have hne : k₁ ≠ k := by
      intro he
      exact hk (List.mem_cons.mpr (Or.inl he.symm))
    rw [ih (dictSet h k₁ (f k₁)) (fun hm => hk (List.mem_cons_of_mem _ hm)),
      dictGet_dictSet_ne _ _ _ _ hne]

theorem dictGet_foldl_dictSet_mem {β : Type} (ks : List String) (f : String → β)
    (h : Dict β) (k : String) (hk : k ∈ ks) :
    dictGet (ks.foldl (fun acc k₂ => dictSet acc k₂ (f k₂)) h) k = some (f k) := by
  induction ks generalizing h with
  | nil => cases hk
  | cons k₁ rest ih =>
    simp only [List.foldl_cons]
    by_cases hm : k ∈ rest
    · exact ih (dictSet h k₁ (f k₁)) hm
    · have hk₁ : k₁ = k := by
        rcases List.mem_cons.mp hk with h₁ | h₁
        · exact h₁.symm
        · exact absurd h₁ hm
      subst hk₁
      rw [dictGet_foldl_dictSet_notMem rest f _ k₁ hm, dictGet_dictSet_self]

theorem dictKeys_foldl_dictSet {β : Type} (ks : List String) (f : String → β)
    (h : Dict β) :
    dictKeys (ks.foldl (fun acc k₂ => dictSet acc k₂ (f k₂)) h) =
      ks.foldl (fun acc k₂ => if k₂ ∈ acc then acc else acc ++ [k₂]) (dictKeys h) := by
  induction ks generalizing h with
  | nil => rfl
  | cons k₁ rest ih =>
    simp only [List.foldl_cons]
    rw [ih (dictSet h k₁ (f k₁)), dictKeys_dictSet]

/-- Lookup after `populateHeader`: every documented key ends up present, bound
to the codec value when the codec header has it and to the `None` marker
otherwise. -/
theorem dictGet_populateHeader (pfbHeader : Dict HVal) (h : OutHeader) (k : String)
    (hk : k ∈ headerFieldKeys) :
    dictGet (populateHeader pfbHeader h) k = some (dictGet pfbHeader k) := by
  simpa [populateHeader] using
    dictGet_foldl_dictSet_mem headerFieldKeys (fun k₂ => dictGet pfbHeader k₂) h k hk

/-- Keys after `populateHeader` on an initially empty dict: exactly the
thirteen documented keys, in source order. -/
theorem dictKeys_populateHeader_nil (pfbHeader : Dict HVal) :
    dictKeys (populateHeader pfbHeader []) = headerFieldKeys := by
  rw [populateHeader, dictKeys_foldl_dictSet headerFieldKeys (fun k₂ => dictGet pfbHeader k₂) []]
  decide

/-- C1 counterexample: on a construction where the accelerated bindings do
resolve, the recorded `implementation_type` is the string `"default"`, not
`"accelerated"` as claimed. -/
theorem c1_accelerated_label_counterexample :
    (PFDataService.construct (some testBindings) testBindings).implementation_type
      = some "default" ∧ "default" ≠ "accelerated" :=
  ⟨rfl, by decide⟩

/-- C1 (amended): at facade construction, if the accelerated bindings resolve
the recorded `implementation_type` is `"default"`; on any resolution failure
the selector falls back to the portable bindings and records `"portable"` —
so after construction it is always one of exactly these two values. -/
theorem c1_backend_selector_fallback (accel : Option ImplBindings)
    (portable : ImplBindings) :
    (PFDataService.construct accel portable).implementation_type
      = some (if accel.isSome then "default" else "portable") := by
  cases accel <;> rfl

/-- C2: `read_pfb_files_numpy` never forwards its `mode` argument to the
stacker — the whole call, return value, header dict and state included, is
identical for any two mode values, contradicting the method docstring which
says the returned data depends on the mode. -/
theorem c2_files_mode_ignored (self : PFDataService) (file_names : List String)
    (header : Option OutHeader) (m₁ m₂ : String) (z_is : Option String) :
    self.read_pfb_files_numpy file_names header m₁ z_is
      = self.read_pfb_files_numpy file_names header m₂ z_is :=
  rfl

/-- C3 counterexample: passing a dict that already holds the undocumented key
`"extra"` to `read_pfb_numpy` leaves that key in place, so after the call the
dict holds fourteen keys, not exactly the thirteen documented ones. -/
theorem c3_extra_key_counterexample :
    "extra" ∉ headerFieldKeys ∧
    ((PFDataService.construct (some testBindings) testBindings).read_pfb_numpy
        "f.pfb" (some [("extra", none)]) "full").2.1.map dictKeys
      = some ("extra" :: headerFieldKeys) := by
  constructor
  · decide
  · decide

/-- C3 (amended): `read_pfb_numpy` assigns every one of the thirteen
documented keys into the supplied dict — each bound to the codec header value
when present and to the explicit `None` marker otherwise — and keys other than
the thirteen that were already present remain, so the dict holds exactly the
thirteen documented keys whenever it was empty before the call. -/
theorem c3_header_population (self : PFDataService) (rc : String → ParflowBinaryReader)
    (file_name : String) (h : OutHeader) (mode : String) (k : String)
    (hr : self.parflow_binary_reader_class = some rc) (hk : k ∈ headerFieldKeys) :
    (self.read_pfb_numpy file_name (some h) mode).2.1
        = some (populateHeader (rc file_name).header h)
    ∧ dictGet (populateHeader (rc file_name).header h) k
        = some (dictGet (rc file_name).header k)
    ∧ dictKeys (populateHeader (rc file_name).header []) = headerFieldKeys := by
  refine ⟨?_, dictGet_populateHeader _ h k hk, dictKeys_populateHeader_nil _⟩
  simp [PFDataService.read_pfb_numpy, hr]

/-- C3 witness: the amended statement instantiated on a concrete facade, an
initially empty dict and the key `"nx"`. -/
theorem c3_header_population_witness :
    ((PFDataService.construct (some testBindings) testBindings).read_pfb_numpy
        "f.pfb" (some []) "full").2.1
        = some (populateHeader (testReader "f.pfb").header [])
    ∧ dictGet (populateHeader (testReader "f.pfb").header []) "nx"
        = some (dictGet (testReader "f.pfb").header "nx")
    ∧ dictKeys (populateHeader (testReader "f.pfb").header []) = headerFieldKeys :=
  c3_header_population (PFDataService.construct (some testBindings) testBindings)
    testReader "f.pfb" [] "full" "nx" rfl (by decide)

/-- C4 counterexample: the out-of-enumeration mode `"bogus"` passed to
`read_pfb_files_numpy` raises nothing and behaves exactly like the default
mode `"full"` — the facade silently ignores it instead of raising
`UnsupportedModeError`. -/
theorem c4_invalid_mode_counterexample :
    (PFDataService.construct (some testBindings) testBindings).read_pfb_files_numpy
        ["a.pfb"] none "bogus" none
      = (PFDataService.construct (some testBindings) testBindings).read_pfb_files_numpy
        ["a.pfb"] none "full" none
    ∧ ((PFDataService.construct (some testBindings) testBindings).read_pfb_files_numpy
        ["a.pfb"] none "bogus" none).1.isSome = true :=
  ⟨rfl, rfl⟩

/-- C4 (amended): the facade validates neither mode nor outer-axis values:
`read_pfb_numpy` forwards any mode string unvalidated to the codec, and
`read_pfb_files_numpy` drops its mode argument entirely and forwards any
`z_is` value unvalidated to the stacker; no `UnsupportedModeError` exists in
or is raised by the facade. -/
theorem c4_no_mode_validation (self : PFDataService) (rc : String → ParflowBinaryReader)
    (st : List String → Bool → String → NDArray) (file_name : String)
    (files : List String) (h : Option OutHeader) (m : String) (z : Option String)
    (hr : self.parflow_binary_reader_class = some rc)
    (hs : self.read_stack_of_pfbs = some st) :
    (self.read_pfb_numpy file_name h m).1
        = some ((rc file_name).read_all_subgrids m self.z_first)
    ∧ (self.read_pfb_files_numpy files h m z).1
        = some (st files self.z_first (z.getD self.z_is)) := by
  constructor
  · cases h <;> simp [PFDataService.read_pfb_numpy, hr]
  · simp [PFDataService.read_pfb_files_numpy, hs]

/-- C4 witness: the amended statement instantiated on a concrete facade and
the out-of-enumeration mode `"bogus"`. -/
theorem c4_no_mode_validation_witness :
    ((PFDataService.construct (some testBindings) testBindings).read_pfb_numpy
        "f.pfb" none "bogus").1
        = some ((testReader "f.pfb").read_all_subgrids "bogus" true)
    ∧ ((PFDataService.construct (some testBindings) testBindings).read_pfb_files_numpy
        ["f.pfb"] none "bogus" none).1
        = some (testBindings.stacker ["f.pfb"] true "z") :=
  c4_no_mode_validation (PFDataService.construct (some testBindings) testBindings)
    testReader testBindings.stacker "f.pfb" ["f.pfb"] none "bogus" none rfl rfl

/-- C5: both write methods are `pass` stubs — for every header, data array and
mode they return `None` and perform no file write at all, so no written file
exists for a read to reproduce the data from. -/
theorem c5_write_is_stub (self : PFDataService) (header : Dict HVal)
    (data : NDArray) (mode : String) :
    self.write_pfb_from_numpy header data mode = (none, [], self)
    ∧ self.write_dist_files_from_numpy header data mode = (none, [], self) :=
  ⟨rfl, rfl⟩

/-- C6: `read_pfb_header` returns the null result for every file path — it
performs no decoding and yields no header mapping. -/
theorem c6_read_header_returns_none (self : PFDataService) (file_name : String) :
    (self.read_pfb_header file_name).1 = none :=
  rfl

/-- C7: every read operation of the facade leaves the whole facade state —
`z_first`, `z_is` and the four injected backend fields — exactly as it found
it. -/
theorem c7_reads_preserve_state (self : PFDataService) (file_name : String)
    (files : List String) (h : Option OutHeader) (m : String) (z : Option String) :
    (self.read_pfb_xarray_dataset file_name h).2.2 = self
    ∧ (self.read_pfb_xarray_dataarray file_name).2 = self
    ∧ (self.read_pfb_numpy file_name h m).2.2 = self
    ∧ (self.read_pfb_files_numpy files h m z).2.2 = self
    ∧ (self.read_pfb_header file_name).2 = self := by
  refine ⟨rfl, rfl, ?_, ?_, rfl⟩
  · unfold PFDataService.read_pfb_numpy
    cases self.parflow_binary_reader_class with
    | none => rfl
    | some rc => cases h <;> rfl
  · unfold PFDataService.read_pfb_files_numpy
    cases self.read_stack_of_pfbs <;> rfl

/-- C8: a default-constructed facade has `z_is = "z"` and `z_first = true`,
and calling `read_pfb_files_numpy` without a `z_is` argument behaves exactly
like passing the configured default explicitly. -/
theorem c8_default_outer_axis (accel : Option ImplBindings) (portable : ImplBindings)
    (self : PFDataService) (files : List String) (h : Option OutHeader) (m : String) :
    (PFDataService.construct accel portable).z_is = "z"
    ∧ (PFDataService.construct accel portable).z_first = true
    ∧ self.read_pfb_files_numpy files h m none
        = self.read_pfb_files_numpy files h m (some self.z_is) := by
  refine ⟨?_, ?_, ?_⟩
  · cases accel <;> rfl
  · cases accel <;> rfl
  · unfold PFDataService.read_pfb_files_numpy
    cases self.read_stack_of_pfbs <;> rfl

/-- C9: `read_pfb_files_numpy` leaves the caller-supplied header dict
completely untouched, for every file list, mode and outer-axis value. -/
theorem c9_files_header_untouched (self : PFDataService) (files : List String)
    (h : Option OutHeader) (m : String) (z : Option String) :
    (self.read_pfb_files_numpy files h m z).2.1 = h := by
  unfold PFDataService.read_pfb_files_numpy
  cases self.read_stack_of_pfbs <;> rfl

/-- C10: `read_pfb_xarray_dataset` always passes the fixed name
`xxdefault_single` to the backend adapter, while `read_pfb_xarray_dataarray`
passes the base name of the file. -/
theorem c10_dataset_name_constant (self : PFDataService) (file_name : String)
    (h : Option OutHeader) :
    (self.read_pfb_xarray_dataset file_name h).1.name = "xxdefault_single"
    ∧ (self.read_pfb_xarray_dataarray file_name).1.name = osPathBasename file_name :=
  ⟨rfl, rfl⟩

end PFTools
